import Mathlib

/-!
Verification of the scrappit repository core against its specification.

The repository has two generations of the same scraper:
* `reddit_scraper/api.py` and `reddit_scraper/requester.py` — the
  rate-limited HTTP client (`RedditAPI.get` / `RedditRequester.get`), whose
  retry/backoff control flow is duplicated line for line between the two
  files, plus the request-construction helpers `listing`, `r`, `comments`.
* `src/scrappit/scheduler.py` (and its older duplicate
  `src/scrappit/dispatcher.py`) — the priority task scheduler running a
  single worker thread.

We embed the control logic shallowly: time values are rationals, the
network environment for each attempt (the observed clock values and the
response or transport timeout) is an explicit input, and the side effects
(sleeps, identity rotation, issued requests) are recorded in an event
trace.
-/

namespace RedditScraper

/-- Decoded JSON payloads are never inspected by the core; we model them as
an opaque wrapper around a string. -/
structure JSON where
  raw : String
deriving DecidableEq, Repr

/-- Constant `RedditAPI.TIMEOUT` in `api.py` (and `requester.py`): the fixed
per-call timeout, also the floor of the 429 backoff. -/
def TIMEOUT : ℚ := 10

/-- Constant `RedditAPI.MAX_TRIES` in `api.py` (and `requester.py`). -/
def MAX_TRIES : Nat := 3

/-- The mutable client state of `RedditAPI` (`requests_remaining`,
`reset_time`, and the session's current User-Agent header).  Identity
rotation (`self.session.headers["User-Agent"] = self.user_agent.random`)
is modelled by incrementing `uaIndex`: each rotation installs a fresh
identity drawn from the generator. -/
structure ClientState where
  requests_remaining : Int
  reset_time : ℚ
  uaIndex : Nat
deriving DecidableEq, Repr

/-- A response as the client consumes it: the status code and the two
rate-limit headers.  `ratelimitRemaining` is the result of
`int(float(headers["X-Ratelimit-Remaining"]))`; `ratelimitReset` of
`int(headers["X-Ratelimit-Reset"])`. -/
structure HttpResponse where
  status : Nat
  ratelimitRemaining : Int
  ratelimitReset : Int
  body : JSON
deriving DecidableEq, Repr

/-- The environment of one loop iteration of `get`: the value `time()`
returns at the top of the iteration, and either a transport `Timeout`
from `session.get` or a response together with the value the second
`time()` call returns. -/
inductive AttemptEnv where
  | timeout (now1 : ℚ)
  | resp (now1 now2 : ℚ) (r : HttpResponse)
deriving DecidableEq, Repr

/-- Externally visible effects of the client, in order. -/
inductive Event where
  | sleepEv (duration : ℚ)
  | rotateEv
  | requestEv (ua : Nat)
deriving DecidableEq, Repr

/-- The library call `requests.Response.raise_for_status` raises `HTTPError` exactly for
client-error (4xx) and server-error (5xx) status codes; all other codes
are left alone. -/
def raisesForStatus (status : Nat) : Bool :=
  400 ≤ status && status < 600

/-- Lines 59–64 of `api.py` (identical in `requester.py`): the pre-request
budget check.  If the window has expired the budget is optimistically
reset to 1; else if the budget is exhausted the client sleeps until
`reset_time`, rotates its identity, and sets the budget to 1. -/
def preRequest (s : ClientState) (now1 : ℚ) : ClientState × List Event :=
  if s.reset_time < now1 then
    ({ s with requests_remaining := 1 }, [])
  else if s.requests_remaining = 0 then
    ({ requests_remaining := 1, reset_time := s.reset_time, uaIndex := s.uaIndex + 1 },
      [Event.sleepEv (s.reset_time - now1), Event.rotateEv])
  else
    (s, [])

/-- Outcome of one loop iteration of `get`. -/
inductive AttemptResult where
  | timedOut (s : ClientState) (tr : List Event)
  | throttled (s : ClientState) (tr : List Event)
  | fatal (status : Nat) (s : ClientState) (tr : List Event)
  | success (body : JSON) (s : ClientState) (tr : List Event)
deriving DecidableEq, Repr

/-- One iteration of the `for _ in range(MAX_TRIES)` loop of
`RedditAPI.get` (lines 57–83 of `api.py`; lines 28–54 of `requester.py`
are the same control flow).  After the budget check the GET is issued; a
transport timeout just continues the loop.  A status outside {200, 429}
hits `raise_for_status()`, which raises only for 4xx/5xx.  Otherwise the
rate-limit headers update the state; a 429 sleeps
`max(TIMEOUT, reset_time - now)`, rotates the identity and continues;
anything else returns the decoded body. -/
def attempt (s : ClientState) (env : AttemptEnv) : AttemptResult :=
  match env with
  | AttemptEnv.timeout now1 =>
      let p := preRequest s now1
      AttemptResult.timedOut p.1 (p.2 ++ [Event.requestEv p.1.uaIndex])
  | AttemptEnv.resp now1 now2 r =>
      let p := preRequest s now1
      let tr2 := p.2 ++ [Event.requestEv p.1.uaIndex]
      if r.status ≠ 200 ∧ r.status ≠ 429 ∧ raisesForStatus r.status then
        AttemptResult.fatal r.status p.1 tr2
      else
        let s2 : ClientState :=
          { requests_remaining := r.ratelimitRemaining,
            reset_time := now2 + (r.ratelimitReset : ℚ),
            uaIndex := p.1.uaIndex }
        if r.status = 429 then
          let d := max TIMEOUT (s2.reset_time - now2)
          AttemptResult.throttled { s2 with uaIndex := s2.uaIndex + 1 }
            (tr2 ++ [Event.sleepEv d, Event.rotateEv])
        else
          AttemptResult.success r.body s2 tr2

/-- The client state an attempt ends in. -/
def AttemptResult.state : AttemptResult → ClientState
  | timedOut s _ => s
  | throttled s _ => s
  | fatal _ s _ => s
  | success _ s _ => s

/-- The event trace of an attempt. -/
def AttemptResult.trace : AttemptResult → List Event
  | timedOut _ tr => tr
  | throttled _ tr => tr
  | fatal _ _ tr => tr
  | success _ _ tr => tr

/-- The value the first `time()` call of the iteration returns. -/
def AttemptEnv.now1 : AttemptEnv → ℚ
  | timeout n => n
  | resp n _ _ => n

/-- The error `get` ends with: `HTTPError` from `raise_for_status`, or
`RetryError` after the loop exhausts `MAX_TRIES` iterations. -/
inductive GetError where
  | httpError (status : Nat)
  | retryError
deriving DecidableEq, Repr

/-- Result of a whole `get` call: the returned payload or the raised
error, the final client state, and the event trace. -/
structure GetOutcome where
  result : Except GetError JSON
  final : ClientState
  trace : List Event
deriving Repr

/-- The retry loop of `get`: `fuel` iterations remain, `i` indexes the
attempt environments.  When the fuel runs out, `RetryError` is raised
(line 85 of `api.py`). -/
def getAux (envs : Nat → AttemptEnv) : Nat → Nat → ClientState → GetOutcome
  | 0, _, s => ⟨Except.error GetError.retryError, s, []⟩
  | fuel + 1, i, s =>
      match attempt s (envs i) with
      | AttemptResult.timedOut s1 tr =>
          let o := getAux envs fuel (i + 1) s1
          ⟨o.result, o.final, tr ++ o.trace⟩
      | AttemptResult.throttled s1 tr =>
          let o := getAux envs fuel (i + 1) s1
          ⟨o.result, o.final, tr ++ o.trace⟩
      | AttemptResult.fatal status s1 tr =>
          ⟨Except.error (GetError.httpError status), s1, tr⟩
      | AttemptResult.success body s1 tr =>
          ⟨Except.ok body, s1, tr⟩

/-- Function `RedditAPI.get` of `api.py`, as a function of the attempt
environments and the starting client state.  (The endpoint and query
parameters do not influence the retry control flow; request construction
is modelled separately below.) -/
def RedditAPI.get (envs : Nat → AttemptEnv) (s : ClientState) : GetOutcome :=
  getAux envs MAX_TRIES 0 s

/-- Function `RedditRequester.get` of `requester.py`: the older duplicated variant.
Its loop body (lines 27–56) is the same control flow as
`RedditAPI.get`, statement for statement — same budget check, same
`max(TIMEOUT, reset_time - now)` backoff, same `RetryError`; only the URL
construction differs, which does not affect the retry logic. -/
def RedditRequester.get (envs : Nat → AttemptEnv) (s : ClientState) : GetOutcome :=
  getAux envs MAX_TRIES 0 s

/-- An attempt environment that consumes an attempt without raising and
without returning: a transport timeout or a throttling (429) response. -/
def consuming : AttemptEnv → Prop
  | AttemptEnv.timeout _ => True
  | AttemptEnv.resp _ _ r => r.status = 429

instance : DecidablePred consuming := by
  intro e
  cases e with
  | timeout now1 => exact isTrue trivial
  | resp now1 now2 r => exact inferInstanceAs (Decidable (r.status = 429))

/-- Number of HTTP requests issued in a trace. -/
def requestCount (tr : List Event) : Nat :=
  tr.countP fun e => match e with
    | Event.requestEv _ => true
    | _ => false

/-! ### Request construction (`listing`, `r`, `comments` of `api.py`) -/

/-- Enum `SubredditSort` of `api.py`. -/
inductive SubredditSort where
  | hot | new | top | controversial | rising
deriving DecidableEq, Repr

/-- The `.value` string of a `SubredditSort` member. -/
def SubredditSort.value : SubredditSort → String
  | hot => "hot"
  | new => "new"
  | top => "top"
  | controversial => "controversial"
  | rising => "rising"

/-- Enum `SubredditT` of `api.py`. -/
inductive SubredditT where
  | hour | day | week | month | year | all
deriving DecidableEq, Repr

/-- The `.value` string of a `SubredditT` member. -/
def SubredditT.value : SubredditT → String
  | hour => "hour"
  | day => "day"
  | week => "week"
  | month => "month"
  | year => "year"
  | all => "all"

/-- A GET request as `RedditAPI.get` issues it: the URL path (endpoint
with the `.json` suffix) and the query parameters in dict insertion
order. -/
structure Request where
  path : String
  params : List (String × String)
deriving DecidableEq, Repr

/-- Python truthiness of a `str | None` value: `None` and the empty
string are falsy. -/
def truthy : Option String → Bool
  | none => false
  | some s => s ≠ ""

/-- The request `RedditAPI.get(endpoint, **params)` issues (line 54 and
line 67 of `api.py`): `params["raw_json"] = "1"` is set, then the GET
goes to `f"{BASE_URL}{endpoint}.json"`. -/
def RedditAPI.getRequest (endpoint : String) (params : List (String × String)) : Request :=
  { path := endpoint ++ ".json", params := params ++ [("raw_json", "1")] }

/-- The request `RedditAPI.listing(endpoint, before, after, **params)`
issues (lines 87–95 of `api.py`): `params["limit"] = "100"`, then
`before` if truthy, `elif` `after` if truthy, then delegate to `get`. -/
def RedditAPI.listingRequest (endpoint : String) (before after : Option String)
    (params : List (String × String)) : Request :=
  let p1 := params ++ [("limit", "100")]
  let p2 :=
    if truthy before then p1 ++ [("before", before.getD "")]
    else if truthy after then p1 ++ [("after", after.getD "")]
    else p1
  RedditAPI.getRequest endpoint p2

/-- The request `RedditAPI.r(subreddit, sort, t, before, after)` issues
(lines 97–110 of `api.py`): endpoint `/r/{subreddit}/{sort.value}`, with
the `t` parameter passed only when the sort is TOP or CONTROVERSIAL. -/
def RedditAPI.rRequest (subreddit : String) (sort : SubredditSort) (t : SubredditT)
    (before after : Option String) : Request :=
  let endpoint := "/r/" ++ subreddit ++ "/" ++ sort.value
  if sort = SubredditSort.top ∨ sort = SubredditSort.controversial then
    RedditAPI.listingRequest endpoint before after [("t", t.value)]
  else
    RedditAPI.listingRequest endpoint before after []

/-- Whether a query-parameter key occurs in a request. -/
def Request.hasKey (r : Request) (k : String) : Bool :=
  r.params.any fun p => p.1 = k

end RedditScraper

namespace Scrappit

/-- Dataclass `ScrappitTask` of `scheduler.py`: `name`, `args`, `kwargs` are
`compare=False` fields; dataclass ordering therefore compares
`(priority, task_id)` in declaration order.  The Python argument tuple
holds arbitrary objects; we carry it as an opaque list of strings since
no claim inspects it. -/
structure ScrappitTask where
  name : String
  args : List String
  priority : ℚ
  task_id : Nat
deriving DecidableEq, Repr

/-- The dataclass order on `ScrappitTask`: lexicographic on
`(priority, task_id)`, the fields not marked `compare=False`. -/
def taskLE (a b : ScrappitTask) : Prop :=
  a.priority < b.priority ∨ (a.priority = b.priority ∧ a.task_id ≤ b.task_id)

instance : DecidableRel taskLE := by
  intro a b
  exact inferInstanceAs (Decidable (_ ∨ _))

/-- The queue method `PriorityQueue.get` pops a least element under the dataclass order.
We model the heap as a list in insertion order; `popMin` selects the
first least element and returns it with the remaining elements. -/
def popMin : List ScrappitTask → Option (ScrappitTask × List ScrappitTask)
  | [] => none
  | t :: ts =>
      match popMin ts with
      | none => some (t, ts)
      | some (m, rest) => if taskLE t m then some (t, ts) else some (m, t :: rest)

/-- Repeatedly popping the least element: `fuel` bounds the number of
pops; `drain` below supplies fuel equal to the queue length. -/
def drainFuel : Nat → List ScrappitTask → List ScrappitTask
  | 0, _ => []
  | fuel + 1, l =>
      match popMin l with
      | none => []
      | some (m, rest) => m :: drainFuel fuel rest

/-- The dequeue order of a queue: the sequence of tasks obtained by
popping the least `(priority, task_id)` element until empty. -/
def drain (l : List ScrappitTask) : List ScrappitTask :=
  drainFuel l.length l

/-- The submission half of `ScrappitScheduler`: the task queue (modelled
as the list of enqueued tasks in insertion order) and the monotonic
`task_id` counter. -/
structure SchedulerQueues where
  task_queue : List ScrappitTask
  task_id : Nat
deriving DecidableEq, Repr

/-- The scheduler as `__init__` leaves it. -/
def SchedulerQueues.init : SchedulerQueues :=
  { task_queue := [], task_id := 0 }

/-- Method `ScrappitScheduler.put_task` (lines 72–76 of `scheduler.py`): stamp
the task with the next monotonic id, bump the counter, enqueue, and
return the stamped task. -/
def ScrappitScheduler.put_task (st : SchedulerQueues) (task : ScrappitTask) :
    SchedulerQueues × ScrappitTask :=
  let task' := { task with task_id := st.task_id }
  ({ task_queue := st.task_queue ++ [task'], task_id := st.task_id + 1 }, task')

/-- Submit a batch of `(name, priority)` pairs in order, starting from a
fresh scheduler. -/
def submitAll (subs : List (String × ℚ)) : SchedulerQueues :=
  subs.foldl (fun st nb => (ScrappitScheduler.put_task st ⟨nb.1, [], nb.2, 0⟩).1)
    SchedulerQueues.init

/-! ### Default priorities (`ScrappitScheduler.r`, `.user`, `.comments`)

`scheduler.py` reads the weights from enum members defined in
`src/scrappit/api.py`, which is not part of the sources given (only
`scheduler.py`, its caller, is).  Modelled from the spec: the weights of
section 4.2 ("a static per-operation base weight plus modifiers for sort
order and time window") are opaque numeric constants; we take them as
parameters, one per enum member, packaged in `Weights`.  The enum member
sets mirror the homonymous enums of `reddit_scraper/api.py` and the
members `scheduler.py` itself references. -/

/-- Enum `RedditAPISubredditSort` members, as referenced by `scheduler.py`. -/
inductive RedditAPISubredditSort where
  | hot | new | top | controversial | rising
deriving DecidableEq, Repr

/-- Enum `RedditAPIT` members. -/
inductive RedditAPIT where
  | hour | day | week | month | year | all
deriving DecidableEq, Repr

/-- Enum `RedditAPIUserWhere` members. -/
inductive RedditAPIUserWhere where
  | overview | submitted | comments
deriving DecidableEq, Repr

/-- Enum `RedditAPIUserSort` members, as referenced by `scheduler.py`. -/
inductive RedditAPIUserSort where
  | hot | new | top | controversial
deriving DecidableEq, Repr

/-- Enum `RedditAPICommentsSort` members. -/
inductive RedditAPICommentsSort where
  | confidence | top | new | controversial | old | qa
deriving DecidableEq, Repr

/-- The numeric priority weights `scheduler.py` reads off the
`.value.priority` of the enum members of the absent
`src/scrappit/api.py`: a base weight per operation kind and a weight per
sort / time-window / where member. -/
structure Weights where
  rTask : ℚ
  userTask : ℚ
  commentsTask : ℚ
  subredditSort : RedditAPISubredditSort → ℚ
  t : RedditAPIT → ℚ
  userWhere : RedditAPIUserWhere → ℚ
  userSort : RedditAPIUserSort → ℚ
  commentsSort : RedditAPICommentsSort → ℚ

/-- The default priority computed by `ScrappitScheduler.r`
(lines 115–122 of `scheduler.py`) when the caller passes no explicit
priority: base weight of the R operation plus the sort weight, plus the
time-window weight when the sort is TOP or CONTROVERSIAL, divided by the
number of summands (3 or 2). -/
def rDefaultPriority (W : Weights) (sort : RedditAPISubredditSort) (t : RedditAPIT) : ℚ :=
  let p := W.rTask + W.subredditSort sort
  if sort = RedditAPISubredditSort.top ∨ sort = RedditAPISubredditSort.controversial then
    (p + W.t t) / 3
  else
    p / 2

/-- The default priority computed by `ScrappitScheduler.user`
(lines 142–149 of `scheduler.py`): base weight of the USER operation plus
the where weight plus the sort weight, plus the time-window weight when
the sort is TOP or CONTROVERSIAL, divided by the number of summands
(4 or 3). -/
def userDefaultPriority (W : Weights) (wh : RedditAPIUserWhere)
    (sort : RedditAPIUserSort) (t : RedditAPIT) : ℚ :=
  let p := W.userTask + W.userWhere wh + W.userSort sort
  if sort = RedditAPIUserSort.top ∨ sort = RedditAPIUserSort.controversial then
    (p + W.t t) / 4
  else
    p / 3

/-- The default priority computed by `ScrappitScheduler.comments`
(lines 156–158 of `scheduler.py`): base weight of the COMMENTS operation
plus the sort weight, divided by 2. -/
def commentsDefaultPriority (W : Weights) (sort : RedditAPICommentsSort) : ℚ :=
  (W.commentsTask + W.commentsSort sort) / 2

/-- Method `ScrappitScheduler.r` (lines 106–124 of `scheduler.py`): resolve the
priority (explicit value if given, else the default) and submit the
task.  The task name is the `RedditAPITask.R.value.name` string, `"r"`
(as the duplicate `dispatcher.py` spells out literally). -/
def ScrappitScheduler.r (W : Weights) (st : SchedulerQueues) (subreddit : String)
    (sort : RedditAPISubredditSort) (t : RedditAPIT) (priority : Option ℚ) :
    SchedulerQueues × ScrappitTask :=
  let p := match priority with
    | some p => p
    | none => rDefaultPriority W sort t
  ScrappitScheduler.put_task st ⟨"r", [subreddit], p, 0⟩

/-- Method `ScrappitScheduler.user` (lines 132–151 of `scheduler.py`). -/
def ScrappitScheduler.user (W : Weights) (st : SchedulerQueues) (username : String)
    (wh : RedditAPIUserWhere) (sort : RedditAPIUserSort) (t : RedditAPIT)
    (priority : Option ℚ) : SchedulerQueues × ScrappitTask :=
  let p := match priority with
    | some p => p
    | none => userDefaultPriority W wh sort t
  ScrappitScheduler.put_task st ⟨"user", [username], p, 0⟩

/-- Method `ScrappitScheduler.comments` (lines 153–160 of `scheduler.py`). -/
def ScrappitScheduler.comments (W : Weights) (st : SchedulerQueues) (article : String)
    (sort : RedditAPICommentsSort) (priority : Option ℚ) :
    SchedulerQueues × ScrappitTask :=
  let p := match priority with
    | some p => p
    | none => commentsDefaultPriority W sort
  ScrappitScheduler.put_task st ⟨"comments", [article], p, 0⟩

/-- The formula claimed by spec section 4.2 for the default priority of
any operation, stated in the spec's own terms: base weight of the
operation kind plus the sort weight, plus the time-window weight only
when the sort is a time-window ranking, divided by the number of
contributing components (2 or 3).  Kept separate from the definitions
above, which are read off `scheduler.py`, so the two can be compared. -/
def specDefaultPriority (base sortW tW : ℚ) (sortIsTimeWindowed : Bool) : ℚ :=
  if sortIsTimeWindowed then (base + sortW + tW) / 3 else (base + sortW) / 2

/-! ### The worker loop (`ScrappitScheduler.run` / `.stop`) -/

/-- Dataclass `ScrappitResult` of `scheduler.py`: the originating task and a value
that is a decoded payload or a captured exception.  Exceptions are
carried as their string rendering. -/
structure ScrappitResult where
  task : ScrappitTask
  value : Except String RedditScraper.JSON
deriving Repr

/-- Program counter of the worker thread between the atomic actions of
one iteration of `ScrappitScheduler.run` (lines 52–67 of
`scheduler.py`): about to test `running.is_set()`; about to test
`task_queue.empty()` and pop; or executing a popped task. -/
inductive WorkerPC where
  | checkFlag
  | popQueue
  | execute (t : ScrappitTask)
deriving Repr

/-- State of a `ScrappitScheduler` worker as seen by the loop: the
program counter (`none` once the loop has exited), the `running` event
flag, the task queue, and the result queue in arrival order. -/
structure WorkerState where
  pc : Option WorkerPC
  running : Bool
  task_queue : List ScrappitTask
  results : List ScrappitResult
deriving Repr

/-- One atomic step of the worker loop of `ScrappitScheduler.run`.
`exec` is the outcome of `getattr(self.api, task.name)(*task.args,
**task.kwargs)`: a payload, or the exception it raises.  At `checkFlag`
the loop exits if the flag is clear; at `popQueue` an empty queue means
`sleep(IDLE_SLEEP)` and loop, otherwise the least task is popped; at
`execute` the `try`/`except Exception` wraps the outcome — value or
captured error — into exactly one `ScrappitResult` pushed to the result
queue, and the loop continues.  `stop` may interleave between any two
steps. -/
def step (exec : ScrappitTask → Except String RedditScraper.JSON)
    (s : WorkerState) : WorkerState :=
  match s.pc with
  | none => s
  | some WorkerPC.checkFlag =>
      if s.running then { s with pc := some WorkerPC.popQueue }
      else { s with pc := none }
  | some WorkerPC.popQueue =>
      match popMin s.task_queue with
      | none => { s with pc := some WorkerPC.checkFlag }
      | some (t, rest) => { s with pc := some (WorkerPC.execute t), task_queue := rest }
  | some (WorkerPC.execute t) =>
      { s with pc := some WorkerPC.checkFlag,
               results := s.results ++ [⟨t, exec t⟩] }

/-- Iterated worker steps. -/
def stepN (exec : ScrappitTask → Except String RedditScraper.JSON) :
    Nat → WorkerState → WorkerState
  | 0, s => s
  | n + 1, s => stepN exec n (step exec s)

/-- Method `ScrappitScheduler.stop` (lines 69–70 of `scheduler.py`): clear the
running flag, touching nothing else. -/
def ScrappitScheduler.stop (s : WorkerState) : WorkerState :=
  { s with running := false }

/-- Result budget still available from a given worker program point:
from `popQueue` or `execute` one more result can be produced, from
`checkFlag` or after exit none. -/
def pcBudget : Option WorkerPC → Nat
  | some WorkerPC.popQueue => 1
  | some (WorkerPC.execute _) => 1
  | _ => 0

end Scrappit

/-! ### Concrete inputs used by witnesses and counterexamples -/

/-- A concrete client state: budget 1, window already expired. -/
def cState : RedditScraper.ClientState := ⟨1, 0, 0⟩

/-- A concrete client state with exhausted budget inside the window. -/
def cStateExhausted : RedditScraper.ClientState := ⟨0, 5, 0⟩

/-- An environment of nothing but throttling responses. -/
def cEnvThrottle : Nat → RedditScraper.AttemptEnv :=
  fun _ => RedditScraper.AttemptEnv.resp 1 1 ⟨429, 0, 7, ⟨"throttled"⟩⟩

/-- An environment of 404 responses. -/
def cEnv404 : Nat → RedditScraper.AttemptEnv :=
  fun _ => RedditScraper.AttemptEnv.resp 1 1 ⟨404, 5, 5, ⟨"notfound"⟩⟩

/-- An environment of 204 responses: a status that is neither 200 nor
429 but also not an HTTP error status. -/
def cEnv204 : Nat → RedditScraper.AttemptEnv :=
  fun _ => RedditScraper.AttemptEnv.resp 1 1 ⟨204, 5, 5, ⟨"nobody"⟩⟩

/-- A concrete task. -/
def cTask : Scrappit.ScrappitTask := ⟨"r", ["lean"], 0, 0⟩

/-- A concrete dispatch outcome: every operation succeeds. -/
def cExec : Scrappit.ScrappitTask → Except String RedditScraper.JSON :=
  fun _ => Except.ok ⟨"payload"⟩

/-- A concrete worker state about to execute `cTask`. -/
def cWorkerExecuting : Scrappit.WorkerState :=
  ⟨some (Scrappit.WorkerPC.execute cTask), true, [], []⟩

/-- A concrete running worker state with one queued task. -/
def cWorkerRunning : Scrappit.WorkerState :=
  ⟨some Scrappit.WorkerPC.checkFlag, true, [cTask], []⟩

/-- Concrete weights for the priority resolver: every member weight 0
except the USER operation base and the where-modifier, so that the
contribution of the where component is visible. -/
def cWeights : Scrappit.Weights :=
  { rTask := 0, userTask := 1, commentsTask := 0,
    subredditSort := fun _ => 0, t := fun _ => 0,
    userWhere := fun _ => 1, userSort := fun _ => 0, commentsSort := fun _ => 0 }

instance {ε α : Type} [DecidableEq ε] [DecidableEq α] : DecidableEq (Except ε α) :=
  fun a b =>
    match a, b with
    | Except.ok x, Except.ok y => decidable_of_iff (x = y) (by simp)
    | Except.error x, Except.error y => decidable_of_iff (x = y) (by simp)
    | Except.ok _, Except.error _ => isFalse fun h => Except.noConfusion h
    | Except.error _, Except.ok _ => isFalse fun h => Except.noConfusion h

/-! ## Lemmas about the rate-limited client -/

namespace RedditScraper

/-- Every attempt trace starts with the pre-request events followed by
the issued request. -/
lemma attempt_trace_shape (s : ClientState) (env : AttemptEnv) :
    ∃ rest, (attempt s env).trace =
      (preRequest s env.now1).2 ++
        Event.requestEv (preRequest s env.now1).1.uaIndex :: rest := by
  cases env with
  | timeout now1 =>
      exact ⟨[], by simp [attempt, AttemptResult.trace, AttemptEnv.now1]⟩
  | resp now1 now2 r =>
      simp only [attempt, AttemptEnv.now1]
      split
      · exact ⟨[], by simp [AttemptResult.trace]⟩
      · split
        · exact ⟨[Event.sleepEv (max TIMEOUT (now2 + (r.ratelimitReset : ℚ) - now2)),
            Event.rotateEv], by simp [AttemptResult.trace]⟩
        · exact ⟨[], by simp [AttemptResult.trace]⟩

/-- The pre-request phase never issues a request. -/
lemma requestCount_preRequest (s : ClientState) (now1 : ℚ) :
    requestCount (preRequest s now1).2 = 0 := by
  unfold preRequest
  split
  · rfl
  · split <;> rfl

/-- Request counting distributes over concatenation. -/
lemma requestCount_append (a b : List Event) :
    requestCount (a ++ b) = requestCount a + requestCount b :=
  List.countP_append _ _ _

/-- A consuming attempt (transport timeout or a 429 response) ends in
`timedOut` or `throttled` — it neither raises nor returns — and issues
exactly one request. -/
lemma attempt_consuming (s : ClientState) (env : AttemptEnv) (h : consuming env) :
    ∃ s' tr, (attempt s env = AttemptResult.timedOut s' tr ∨
      attempt s env = AttemptResult.throttled s' tr) ∧ requestCount tr = 1 := by
  cases env with
  | timeout now1 =>
      refine ⟨(preRequest s now1).1,
        (preRequest s now1).2 ++ [Event.requestEv (preRequest s now1).1.uaIndex],
        Or.inl rfl, ?_⟩
      rw [requestCount_append, requestCount_preRequest]
      rfl
  | resp now1 now2 r =>
      have h429 : r.status = 429 := h
      refine ⟨{ requests_remaining := r.ratelimitRemaining,
                reset_time := now2 + (r.ratelimitReset : ℚ),
                uaIndex := (preRequest s now1).1.uaIndex + 1 },
        ((preRequest s now1).2 ++ [Event.requestEv (preRequest s now1).1.uaIndex]) ++
          [Event.sleepEv (max TIMEOUT (now2 + (r.ratelimitReset : ℚ) - now2)),
           Event.rotateEv],
        Or.inr ?_, ?_⟩
      · simp only [attempt, h429]
        norm_num
      · rw [requestCount_append, requestCount_append, requestCount_preRequest]
        rfl

/-- Unfolding of the first loop iteration of `get`. -/
lemma get_unfold (envs : Nat → AttemptEnv) (s : ClientState) :
    RedditAPI.get envs s =
      match attempt s (envs 0) with
      | AttemptResult.timedOut s1 tr =>
          let o := getAux envs 2 1 s1
          ⟨o.result, o.final, tr ++ o.trace⟩
      | AttemptResult.throttled s1 tr =>
          let o := getAux envs 2 1 s1
          ⟨o.result, o.final, tr ++ o.trace⟩
      | AttemptResult.fatal status s1 tr =>
          ⟨Except.error (GetError.httpError status), s1, tr⟩
      | AttemptResult.success body s1 tr =>
          ⟨Except.ok body, s1, tr⟩ := rfl

/-- Unfolding of one loop iteration of `getAux`. -/
lemma getAux_succ (envs : Nat → AttemptEnv) (fuel i : Nat) (s : ClientState) :
    getAux envs (fuel + 1) i s =
      match attempt s (envs i) with
      | AttemptResult.timedOut s1 tr =>
          let o := getAux envs fuel (i + 1) s1
          ⟨o.result, o.final, tr ++ o.trace⟩
      | AttemptResult.throttled s1 tr =>
          let o := getAux envs fuel (i + 1) s1
          ⟨o.result, o.final, tr ++ o.trace⟩
      | AttemptResult.fatal status s1 tr =>
          ⟨Except.error (GetError.httpError status), s1, tr⟩
      | AttemptResult.success body s1 tr =>
          ⟨Except.ok body, s1, tr⟩ := rfl

/-- A consuming environment makes the loop continue: one unit of fuel is
spent, one more request appears on the trace, and the overall result is
the result of the remaining attempts. -/
lemma getAux_consuming_step (envs : Nat → AttemptEnv) (fuel i : Nat) (s : ClientState)
    (h : consuming (envs i)) :
    ∃ s', (getAux envs (fuel + 1) i s).result = (getAux envs fuel (i + 1) s').result ∧
      requestCount (getAux envs (fuel + 1) i s).trace =
        1 + requestCount (getAux envs fuel (i + 1) s').trace := by
  obtain ⟨s', tr, hd, hc⟩ := attempt_consuming s (envs i) h
  refine ⟨s', ?_⟩
  cases hd with
  | inl hEq =>
      have hstep : getAux envs (fuel + 1) i s =
          ⟨(getAux envs fuel (i + 1) s').result, (getAux envs fuel (i + 1) s').final,
            tr ++ (getAux envs fuel (i + 1) s').trace⟩ := by
        rw [getAux_succ, hEq]
      rw [hstep, requestCount_append, hc]
      exact ⟨rfl, rfl⟩
  | inr hEq =>
      have hstep : getAux envs (fuel + 1) i s =
          ⟨(getAux envs fuel (i + 1) s').result, (getAux envs fuel (i + 1) s').final,
            tr ++ (getAux envs fuel (i + 1) s').trace⟩ := by
        rw [getAux_succ, hEq]
      rw [hstep, requestCount_append, hc]
      exact ⟨rfl, rfl⟩

/-- C1: the retry budget of `get` is a fixed maximum of `MAX_TRIES = 3`
attempts; every attempt that ends in a transport timeout or a 429
response consumes one attempt without raising, and when all 3 attempts
are consumed this way the call raises `RetryError` — with exactly 3
requests issued. -/
theorem get_retry_exhausted (envs : Nat → AttemptEnv) (s : ClientState)
    (h0 : consuming (envs 0)) (h1 : consuming (envs 1)) (h2 : consuming (envs 2)) :
    (RedditAPI.get envs s).result = Except.error GetError.retryError ∧
    requestCount (RedditAPI.get envs s).trace = 3 ∧ MAX_TRIES = 3 := by
  obtain ⟨s1, hr1, hc1⟩ := getAux_consuming_step envs 2 0 s h0
  obtain ⟨s2, hr2, hc2⟩ := getAux_consuming_step envs 1 1 s1 h1
  obtain ⟨s3, hr3, hc3⟩ := getAux_consuming_step envs 0 2 s2 h2
  have e1 : (getAux envs 3 0 s).result = (getAux envs 2 1 s1).result := hr1
  have e2 : (getAux envs 2 1 s1).result = (getAux envs 1 2 s2).result := hr2
  have e3 : (getAux envs 1 2 s2).result = (getAux envs 0 3 s3).result := hr3
  have d1 : requestCount (getAux envs 3 0 s).trace =
      1 + requestCount (getAux envs 2 1 s1).trace := hc1
  have d2 : requestCount (getAux envs 2 1 s1).trace =
      1 + requestCount (getAux envs 1 2 s2).trace := hc2
  have d3 : requestCount (getAux envs 1 2 s2).trace =
      1 + requestCount (getAux envs 0 3 s3).trace := hc3
  refine ⟨?_, ?_, rfl⟩
  · show (getAux envs 3 0 s).result = _
    rw [e1, e2, e3]
    rfl
  · show requestCount (getAux envs 3 0 s).trace = 3
    rw [d1, d2, d3]
    rfl

/-- Witness for C1: a client that is throttled on all three attempts
raises `RetryError`. -/
theorem get_retry_exhausted_witness :
    (RedditAPI.get cEnvThrottle cState).result = Except.error GetError.retryError ∧
    requestCount (RedditAPI.get cEnvThrottle cState).trace = 3 :=
  ⟨(get_retry_exhausted cEnvThrottle cState (by decide) (by decide) (by decide)).1,
   (get_retry_exhausted cEnvThrottle cState (by decide) (by decide) (by decide)).2.1⟩

/-- C6: on a 429 response the client (in both duplicated variants)
updates the rate-limit state, sleeps for the larger — `max`, not `min` —
of the fixed timeout (10) and (reset-time minus now), rotates the
identity, and continues the loop with the remaining attempts.  The last
conjunct identifies the two duplicated variants. -/
theorem get_429_backoff (s : ClientState) (now1 now2 : ℚ) (r : HttpResponse)
    (h429 : r.status = 429) :
    attempt s (AttemptEnv.resp now1 now2 r) =
      AttemptResult.throttled
        { requests_remaining := r.ratelimitRemaining,
          reset_time := now2 + (r.ratelimitReset : ℚ),
          uaIndex := (preRequest s now1).1.uaIndex + 1 }
        (((preRequest s now1).2 ++ [Event.requestEv (preRequest s now1).1.uaIndex]) ++
          [Event.sleepEv (max TIMEOUT (now2 + (r.ratelimitReset : ℚ) - now2)),
           Event.rotateEv]) ∧
    TIMEOUT = 10 ∧
    (∀ envs : Nat → AttemptEnv, envs 0 = AttemptEnv.resp now1 now2 r →
      ∃ tr, RedditAPI.get envs s =
        ⟨(getAux envs 2 1 ⟨r.ratelimitRemaining, now2 + (r.ratelimitReset : ℚ),
            (preRequest s now1).1.uaIndex + 1⟩).result,
         (getAux envs 2 1 ⟨r.ratelimitRemaining, now2 + (r.ratelimitReset : ℚ),
            (preRequest s now1).1.uaIndex + 1⟩).final, tr⟩) ∧
    (∀ (envs : Nat → AttemptEnv) (st : ClientState),
      RedditAPI.get envs st = RedditRequester.get envs st) := by
  have hA : attempt s (AttemptEnv.resp now1 now2 r) =
      AttemptResult.throttled
        { requests_remaining := r.ratelimitRemaining,
          reset_time := now2 + (r.ratelimitReset : ℚ),
          uaIndex := (preRequest s now1).1.uaIndex + 1 }
        (((preRequest s now1).2 ++ [Event.requestEv (preRequest s now1).1.uaIndex]) ++
          [Event.sleepEv (max TIMEOUT (now2 + (r.ratelimitReset : ℚ) - now2)),
           Event.rotateEv]) := by
    simp only [attempt, h429]
    norm_num
  refine ⟨hA, rfl, ?_, fun envs st => rfl⟩
  intro envs h0
  have hG : RedditAPI.get envs s =
      ⟨(getAux envs 2 1 ⟨r.ratelimitRemaining, now2 + (r.ratelimitReset : ℚ),
          (preRequest s now1).1.uaIndex + 1⟩).result,
       (getAux envs 2 1 ⟨r.ratelimitRemaining, now2 + (r.ratelimitReset : ℚ),
          (preRequest s now1).1.uaIndex + 1⟩).final,
       (((preRequest s now1).2 ++ [Event.requestEv (preRequest s now1).1.uaIndex]) ++
          [Event.sleepEv (max TIMEOUT (now2 + (r.ratelimitReset : ℚ) - now2)),
           Event.rotateEv]) ++
         (getAux envs 2 1 ⟨r.ratelimitRemaining, now2 + (r.ratelimitReset : ℚ),
            (preRequest s now1).1.uaIndex + 1⟩).trace⟩ := by
    rw [get_unfold, h0, hA]
  exact ⟨_, hG⟩

/-- Witness for C6: a concrete throttled attempt backs off by
`max(10, reset)` and rotates from identity 0 to identity 1. -/
theorem get_429_backoff_witness :
    attempt cState (AttemptEnv.resp 1 1 ⟨429, 0, 7, ⟨"throttled"⟩⟩) =
      AttemptResult.throttled ⟨0, 8, 1⟩
        [Event.requestEv 0, Event.sleepEv 10, Event.rotateEv] := by
  have h := (get_429_backoff cState 1 1 ⟨429, 0, 7, ⟨"throttled"⟩⟩ rfl).1
  rw [h]
  norm_num [preRequest, cState, TIMEOUT]

/-- C7: when an attempt begins with an exhausted budget
(`requests_remaining = 0`) inside the rate-limit window
(`now ≤ reset_time`), the client sleeps exactly `reset_time - now`, then
rotates the identity and sets the budget to 1, all before issuing the
HTTP request of that attempt. -/
theorem get_zero_budget_sleeps (s : ClientState) (env : AttemptEnv)
    (h0 : s.requests_remaining = 0) (h1 : env.now1 ≤ s.reset_time) :
    preRequest s env.now1 =
      ({ requests_remaining := 1, reset_time := s.reset_time, uaIndex := s.uaIndex + 1 },
        [Event.sleepEv (s.reset_time - env.now1), Event.rotateEv]) ∧
    ∃ rest, (attempt s env).trace =
      Event.sleepEv (s.reset_time - env.now1) :: Event.rotateEv ::
        Event.requestEv (s.uaIndex + 1) :: rest := by
  have hlt : ¬ s.reset_time < env.now1 := not_lt.mpr h1
  have hpre : preRequest s env.now1 =
      ({ requests_remaining := 1, reset_time := s.reset_time, uaIndex := s.uaIndex + 1 },
        [Event.sleepEv (s.reset_time - env.now1), Event.rotateEv]) := by
    simp [preRequest, hlt, h0]
  refine ⟨hpre, ?_⟩
  obtain ⟨rest, hr⟩ := attempt_trace_shape s env
  refine ⟨rest, ?_⟩
  rw [hr, hpre]
  rfl

/-- Witness for C7: budget 0, reset at 5, now 1 — the attempt trace
starts with a sleep of 4, a rotation, and the request under the new
identity. -/
theorem get_zero_budget_sleeps_witness :
    ∃ rest, (attempt cStateExhausted (AttemptEnv.timeout 1)).trace =
      Event.sleepEv 4 :: Event.rotateEv :: Event.requestEv 1 :: rest := by
  have h := (get_zero_budget_sleeps cStateExhausted (AttemptEnv.timeout 1)
    rfl (by norm_num [AttemptEnv.now1, cStateExhausted])).2
  simpa [cStateExhausted, AttemptEnv.now1, show (5 : ℚ) - 1 = 4 by norm_num] using h

/-- Counterexample to C4 as stated: a response whose status is neither
200 nor 429 need not fail — `raise_for_status()` raises only for
4xx/5xx, so a 204 response falls through the status check and `get`
returns its decoded body. -/
theorem get_204_returns_payload :
    (RedditAPI.get cEnv204 cState).result = Except.ok ⟨"nobody"⟩ ∧
    (204 ≠ 200 ∧ 204 ≠ 429) := by
  constructor
  · rfl
  · decide

/-- C4 amended: for every response whose status is neither 200 nor 429
*and* is an HTTP error status (4xx/5xx, where `raise_for_status`
raises), `get` fails immediately and non-retryably: the attempt's
`HTTPError` is the final error of the call and only one request is ever
issued. -/
theorem get_http_error_fatal (envs : Nat → AttemptEnv) (s : ClientState)
    (now1 now2 : ℚ) (r : HttpResponse)
    (h0 : envs 0 = AttemptEnv.resp now1 now2 r)
    (hne200 : r.status ≠ 200) (hne429 : r.status ≠ 429)
    (h400 : 400 ≤ r.status) (h600 : r.status < 600) :
    (RedditAPI.get envs s).result = Except.error (GetError.httpError r.status) ∧
    requestCount (RedditAPI.get envs s).trace = 1 := by
  have hrs : raisesForStatus r.status = true := by
    simp only [raisesForStatus, Bool.and_eq_true, decide_eq_true_eq]
    exact ⟨h400, h600⟩
  have hA : attempt s (envs 0) = AttemptResult.fatal r.status (preRequest s now1).1
      ((preRequest s now1).2 ++ [Event.requestEv (preRequest s now1).1.uaIndex]) := by
    rw [h0]
    simp only [attempt]
    rw [if_pos ⟨hne200, hne429, hrs⟩]
  have hG : RedditAPI.get envs s =
      ⟨Except.error (GetError.httpError r.status), (preRequest s now1).1,
        (preRequest s now1).2 ++ [Event.requestEv (preRequest s now1).1.uaIndex]⟩ := by
    rw [get_unfold, hA]
  constructor
  · rw [hG]
  · rw [hG]
    show requestCount ((preRequest s now1).2 ++ _) = 1
    rw [requestCount_append, requestCount_preRequest]
    rfl

/-- Witness for C4 (amended): a 404 response makes `get` fail at once
with the terminal HTTP error after a single request. -/
theorem get_http_error_fatal_witness :
    (RedditAPI.get cEnv404 cState).result = Except.error (GetError.httpError 404) ∧
    requestCount (RedditAPI.get cEnv404 cState).trace = 1 :=
  get_http_error_fatal cEnv404 cState 1 1 ⟨404, 5, 5, ⟨"notfound"⟩⟩ rfl
    (by decide) (by decide) (by decide) (by decide)

/-- C9: every listing request carries `limit=100` and at most one of the
`before`/`after` cursors: `before` whenever it is non-empty, `after`
only when `before` is absent or empty and `after` itself is non-empty.
The hypothesis says the extra query parameters of the call do not
themselves spell the cursor keys, which holds for every call site. -/
theorem listing_request_cursors (endpoint : String) (before after : Option String)
    (params : List (String × String))
    (h : ∀ p ∈ params, p.1 ≠ "before" ∧ p.1 ≠ "after") :
    ("limit", "100") ∈ (RedditAPI.listingRequest endpoint before after params).params ∧
    ¬((RedditAPI.listingRequest endpoint before after params).hasKey "before" = true ∧
      (RedditAPI.listingRequest endpoint before after params).hasKey "after" = true) ∧
    (truthy before = true →
      (RedditAPI.listingRequest endpoint before after params).hasKey "before" = true) ∧
    ((RedditAPI.listingRequest endpoint before after params).hasKey "after" = true →
      truthy before = false ∧ truthy after = true) := by
  have hb : params.any (fun p => p.1 = "before") = false := by
    simp only [List.any_eq_false, decide_eq_true_eq]
    exact fun p hp => (h p hp).1
  have ha : params.any (fun p => p.1 = "after") = false := by
    simp only [List.any_eq_false, decide_eq_true_eq]
    exact fun p hp => (h p hp).2
  by_cases hbt : truthy before = true
  · refine ⟨?_, ?_, fun _ => ?_, ?_⟩ <;>
      simp [RedditAPI.listingRequest, RedditAPI.getRequest, Request.hasKey, hbt, hb, ha]
  · have hbf : truthy before = false := by simpa using hbt
    by_cases hat : truthy after = true
    · refine ⟨?_, ?_, fun hc => ?_, fun _ => ⟨hbf, hat⟩⟩
      · simp [RedditAPI.listingRequest, RedditAPI.getRequest, hbf, hat]
      · simp [RedditAPI.listingRequest, RedditAPI.getRequest, Request.hasKey,
          hbf, hat, hb, ha]
      · rw [hbf] at hc
        exact Bool.noConfusion hc
    · have haf : truthy after = false := by simpa using hat
      refine ⟨?_, ?_, fun hc => ?_, fun hc => ?_⟩
      · simp [RedditAPI.listingRequest, RedditAPI.getRequest, hbf, haf]
      · simp [RedditAPI.listingRequest, RedditAPI.getRequest, Request.hasKey,
          hbf, haf, hb, ha]
      · rw [hbf] at hc
        exact Bool.noConfusion hc
      · rw [show (RedditAPI.listingRequest endpoint before after params).hasKey "after"
            = false by
          simp [RedditAPI.listingRequest, RedditAPI.getRequest, Request.hasKey,
            hbf, haf, hb, ha]] at hc
        exact Bool.noConfusion hc

/-- Witness for C9: a listing call with a non-empty `before` cursor and
a non-empty `after` cursor includes `limit=100` and only `before`. -/
theorem listing_request_cursors_witness :
    ("limit", "100") ∈ (RedditAPI.listingRequest "/r/lean/hot" (some "b") (some "a")
      []).params ∧
    ¬((RedditAPI.listingRequest "/r/lean/hot" (some "b") (some "a") []).hasKey "before"
        = true ∧
      (RedditAPI.listingRequest "/r/lean/hot" (some "b") (some "a") []).hasKey "after"
        = true) :=
  ⟨(listing_request_cursors "/r/lean/hot" (some "b") (some "a") [] (by simp)).1,
   (listing_request_cursors "/r/lean/hot" (some "b") (some "a") [] (by simp)).2.1⟩

/-- C10: for a subreddit listing whose sort is neither `top` nor
`controversial`, the issued request is the same for every value of the
time-window argument `t` — the `t` parameter simply never reaches the
request. -/
theorem r_request_independent_of_t (subreddit : String) (sort : SubredditSort)
    (t1 t2 : SubredditT) (before after : Option String)
    (h1 : sort ≠ SubredditSort.top) (h2 : sort ≠ SubredditSort.controversial) :
    RedditAPI.rRequest subreddit sort t1 before after =
      RedditAPI.rRequest subreddit sort t2 before after := by
  simp [RedditAPI.rRequest, h1, h2]

/-- Witness for C10: a `hot` listing issues the identical request for
the time windows `hour` and `all`. -/
theorem r_request_independent_of_t_witness :
    RedditAPI.rRequest "lean" SubredditSort.hot SubredditT.hour none none =
      RedditAPI.rRequest "lean" SubredditSort.hot SubredditT.all none none :=
  r_request_independent_of_t "lean" SubredditSort.hot SubredditT.hour SubredditT.all
    none none (by decide) (by decide)

end RedditScraper

/-! ## Lemmas about the scheduler's priority queue -/

namespace Scrappit

/-- The dataclass order on tasks is total. -/
lemma taskLE_total (a b : ScrappitTask) : taskLE a b ∨ taskLE b a := by
  unfold taskLE
  rcases lt_trichotomy a.priority b.priority with h | h | h
  · exact Or.inl (Or.inl h)
  · rcases Nat.le_total a.task_id b.task_id with h' | h'
    · exact Or.inl (Or.inr ⟨h, h'⟩)
    · exact Or.inr (Or.inr ⟨h.symm, h'⟩)
  · exact Or.inr (Or.inl h)

/-- The dataclass order on tasks is transitive. -/
lemma taskLE_trans {a b c : ScrappitTask} (hab : taskLE a b) (hbc : taskLE b c) :
    taskLE a c := by
  unfold taskLE at *
  rcases hab with h1 | ⟨h1, h1'⟩
  · rcases hbc with h2 | ⟨h2, h2'⟩
    · exact Or.inl (h1.trans h2)
    · exact Or.inl (h2 ▸ h1)
  · rcases hbc with h2 | ⟨h2, h2'⟩
    · exact Or.inl (h1 ▸ h2)
    · exact Or.inr ⟨h1.trans h2, h1'.trans h2'⟩

/-- Popping returns `none` exactly on the empty queue. -/
lemma popMin_eq_none {l : List ScrappitTask} (h : popMin l = none) : l = [] := by
  cases l with
  | nil => rfl
  | cons t ts =>
      simp only [popMin] at h
      split at h
      · exact Option.noConfusion h
      · split at h <;> exact Option.noConfusion h

/-- Popping the least element is a permutation of the queue. -/
lemma popMin_perm : ∀ {l : List ScrappitTask} {m : ScrappitTask}
    {rest : List ScrappitTask}, popMin l = some (m, rest) → l.Perm (m :: rest) := by
  intro l
  induction l with
  | nil => intro m rest h; exact Option.noConfusion h
  | cons t ts ih =>
      intro m rest h
      simp only [popMin] at h
      split at h
      · cases h
        exact List.Perm.refl _
      · rename_i m' rest' hp
        split at h
        · cases h
          exact List.Perm.refl _
        · cases h
          exact ((ih hp).cons t).trans (List.Perm.swap _ _ _)

/-- The popped element is least among what remains. -/
lemma popMin_min : ∀ {l : List ScrappitTask} {m : ScrappitTask}
    {rest : List ScrappitTask}, popMin l = some (m, rest) →
    ∀ x ∈ rest, taskLE m x := by
  intro l
  induction l with
  | nil => intro m rest h; exact Option.noConfusion h
  | cons t ts ih =>
      intro m rest h x hx
      simp only [popMin] at h
      split at h
      · rename_i hp
        cases h
        cases popMin_eq_none hp
        cases hx
      · rename_i m' rest' hp
        split at h
        · rename_i hle
          cases h
          have hmem : x = m' ∨ x ∈ rest' := by
            have := (popMin_perm hp).mem_iff.mp hx
            simpa using this
          rcases hmem with rfl | hx'
          · exact hle
          · exact taskLE_trans hle (ih hp x hx')
        · rename_i hle
          cases h
          rcases List.mem_cons.mp hx with rfl | hx'
          · rcases taskLE_total m x with h' | h'
            · exact h'
            · exact absurd h' hle
          · exact ih hp x hx'

/-- Draining preserves the queue's elements whenever the fuel covers the
queue length. -/
lemma drainFuel_perm : ∀ (fuel : Nat) (l : List ScrappitTask),
    l.length ≤ fuel → (drainFuel fuel l).Perm l := by
  intro fuel
  induction fuel with
  | zero =>
      intro l h
      rw [Nat.le_zero] at h
      rw [List.length_eq_zero] at h
      subst h
      exact List.Perm.refl _
  | succ fuel ih =>
      intro l h
      simp only [drainFuel]
      split
      · rename_i hp
        cases popMin_eq_none hp
        exact List.Perm.refl _
      · rename_i m rest hp
        have hperm := popMin_perm hp
        have hlen : rest.length + 1 = l.length := by
          have := hperm.length_eq
          simpa using this.symm
        have hle : rest.length ≤ fuel := by omega
        exact ((ih rest hle).cons m).trans hperm.symm

/-- Whatever draining emits was in the queue. -/
lemma drainFuel_mem : ∀ {fuel : Nat} {l : List ScrappitTask} {x : ScrappitTask},
    x ∈ drainFuel fuel l → x ∈ l := by
  intro fuel
  induction fuel with
  | zero => intro l x hx; cases hx
  | succ fuel ih =>
      intro l x hx
      simp only [drainFuel] at hx
      split at hx
      · cases hx
      · rename_i m rest hp
        have hperm := popMin_perm hp
        rcases List.mem_cons.mp hx with rfl | hx'
        · exact hperm.mem_iff.mpr (List.mem_cons_self _ _)
        · exact hperm.mem_iff.mpr (List.mem_cons_of_mem _ (ih hx'))

/-- The drained sequence is sorted by `(priority, task_id)`. -/
lemma drainFuel_sorted : ∀ (fuel : Nat) (l : List ScrappitTask),
    List.Sorted taskLE (drainFuel fuel l) := by
  intro fuel
  induction fuel with
  | zero => intro l; exact List.sorted_nil
  | succ fuel ih =>
      intro l
      simp only [drainFuel]
      split
      · exact List.sorted_nil
      · rename_i m rest hp
        rw [List.sorted_cons]
        refine ⟨?_, ih rest⟩
        intro x hx
        exact popMin_min hp x (drainFuel_mem hx)

/-- C2: tasks are dequeued in ascending `(priority, task_id)` order — the
dequeue sequence of any submitted batch is sorted under the dataclass
order and is a permutation of the queue — and in particular submitting
priorities 1, 1, 0 as A, B, C dequeues C, A, B, the equal-priority pair
A, B in submission-id order 0, 1. -/
theorem scheduler_dequeue_order :
    (∀ subs : List (String × ℚ),
      List.Sorted taskLE (drain (submitAll subs).task_queue) ∧
      (drain (submitAll subs).task_queue).Perm (submitAll subs).task_queue) ∧
    (drain (submitAll [("A", 1), ("B", 1), ("C", 0)]).task_queue).map ScrappitTask.name
      = ["C", "A", "B"] ∧
    (drain (submitAll [("A", 1), ("B", 1), ("C", 0)]).task_queue).map
      ScrappitTask.task_id = [2, 0, 1] := by
  refine ⟨fun subs => ⟨drainFuel_sorted _ _, drainFuel_perm _ _ le_rfl⟩, ?_, ?_⟩
  · decide
  · decide

/-! ## Lemmas about the worker loop -/

/-- An exited worker never moves again. -/
lemma step_pc_eq_none (exec : ScrappitTask → Except String RedditScraper.JSON)
    {s : WorkerState} (h : s.pc = none) : step exec s = s := by
  unfold step
  rw [h]

/-- An exited worker never moves again, for any number of steps. -/
lemma stepN_pc_eq_none (exec : ScrappitTask → Except String RedditScraper.JSON)
    {s : WorkerState} (h : s.pc = none) (n : Nat) : stepN exec n s = s := by
  induction n with
  | zero => rfl
  | succ n ih =>
      simp only [stepN]
      rw [step_pc_eq_none exec h]
      exact ih

/-- Worker steps never touch the running flag (only `stop` does). -/
lemma step_running (exec : ScrappitTask → Except String RedditScraper.JSON)
    (s : WorkerState) : (step exec s).running = s.running := by
  unfold step
  split
  · rfl
  · split <;> rfl
  · split <;> rfl
  · rfl

/-- Splitting a run of worker steps. -/
lemma stepN_add (exec : ScrappitTask → Except String RedditScraper.JSON)
    (a b : Nat) (s : WorkerState) :
    stepN exec (a + b) s = stepN exec b (stepN exec a s) := by
  induction a generalizing s with
  | zero =>
      rw [Nat.zero_add]
      rfl
  | succ a ih =>
      rw [Nat.succ_add]
      simp only [stepN]
      exact ih (step exec s)

/-- At most one result can still be produced from any program point. -/
lemma pcBudget_le_one (pc : Option WorkerPC) : pcBudget pc ≤ 1 := by
  rcases pc with _ | pc
  · exact Nat.zero_le 1
  · cases pc <;> simp [pcBudget]

/-- With the flag clear, one worker step never increases
`results.length + pcBudget`. -/
lemma step_budget (exec : ScrappitTask → Except String RedditScraper.JSON)
    (s : WorkerState) (h : s.running = false) :
    (step exec s).results.length + pcBudget (step exec s).pc ≤
      s.results.length + pcBudget s.pc := by
  rcases hpc : s.pc with _ | pc
  · rw [step_pc_eq_none exec hpc, hpc]
  · cases pc with
    | checkFlag => simp [step, hpc, h, pcBudget]
    | popQueue =>
        simp only [step, hpc]
        split
        · simp [pcBudget]
        · simp [pcBudget]
    | execute t => simp [step, hpc, pcBudget]

/-- With the flag clear, at most one more result is ever produced. -/
lemma stepN_results_budget (exec : ScrappitTask → Except String RedditScraper.JSON)
    (n : Nat) : ∀ s : WorkerState, s.running = false →
    (stepN exec n s).results.length ≤ s.results.length + pcBudget s.pc := by
  induction n with
  | zero => intro s h; exact Nat.le_add_right _ _
  | succ n ih =>
      intro s h
      simp only [stepN]
      have hrun : (step exec s).running = false := by rw [step_running]; exact h
      exact (ih (step exec s) hrun).trans (step_budget exec s h)

/-- With the flag clear, the loop exits within three steps. -/
lemma halts_in_three (exec : ScrappitTask → Except String RedditScraper.JSON)
    (s : WorkerState) (h : s.running = false) : (stepN exec 3 s).pc = none := by
  show (step exec (step exec (step exec s))).pc = none
  rcases hpc : s.pc with _ | pc
  · rw [step_pc_eq_none exec hpc, step_pc_eq_none exec hpc, step_pc_eq_none exec hpc]
    exact hpc
  · cases pc with
    | checkFlag =>
        have h1 : step exec s = { s with pc := none } := by simp [step, hpc, h]
        rw [h1, step_pc_eq_none exec rfl, step_pc_eq_none exec rfl]
    | popQueue =>
        rcases hq : popMin s.task_queue with _ | p
        · have h1 : step exec s = { s with pc := some WorkerPC.checkFlag } := by
            simp [step, hpc, hq]
          have h2 : step exec { s with pc := some WorkerPC.checkFlag } =
              { s with pc := none } := by simp [step, h]
          rw [h1, h2, step_pc_eq_none exec rfl]
        · have h1 : step exec s =
              { s with
                  pc := some (WorkerPC.execute p.1),
                  task_queue := p.2 } := by
            simp [step, hpc, hq]
          have h2 : step exec
              { s with
                  pc := some (WorkerPC.execute p.1),
                  task_queue := p.2 } =
              { s with
                  pc := some WorkerPC.checkFlag,
                  task_queue := p.2,
                  results := s.results ++ [⟨p.1, exec p.1⟩] } := by
            simp [step]
          have h3 : step exec
              { s with
                  pc := some WorkerPC.checkFlag,
                  task_queue := p.2,
                  results := s.results ++ [⟨p.1, exec p.1⟩] } =
              { s with
                  pc := none,
                  task_queue := p.2,
                  results := s.results ++ [⟨p.1, exec p.1⟩] } := by
            simp [step, h]
          rw [h1, h2, h3]
    | execute t =>
        have h1 : step exec s =
            { s with
                pc := some WorkerPC.checkFlag,
                results := s.results ++ [⟨t, exec t⟩] } := by
          simp [step, hpc]
        have h2 : step exec
            { s with
                pc := some WorkerPC.checkFlag,
                results := s.results ++ [⟨t, exec t⟩] } =
            { s with
                pc := none,
                results := s.results ++ [⟨t, exec t⟩] } := by
          simp [step, h]
        rw [h1, h2, step_pc_eq_none exec rfl]

/-- After exit, the worker state is frozen. -/
lemma stepN_const_after_three (exec : ScrappitTask → Except String RedditScraper.JSON)
    (s : WorkerState) (h : s.running = false) (n : Nat) (hn : 3 ≤ n) :
    stepN exec n s = stepN exec 3 s := by
  obtain ⟨k, rfl⟩ : ∃ k, n = 3 + k := ⟨n - 3, by omega⟩
  rw [stepN_add]
  exact stepN_pc_eq_none exec (halts_in_three exec s h) k

/-- C3: a worker about to execute a dequeued task produces exactly one
Result for it — referencing the originating task, its value the decoded
payload or the captured error, never both — pushes nothing else, leaves
the queue alone, and continues the loop (it does not exit) no matter
whether the operation failed. -/
theorem worker_one_result_per_task
    (exec : ScrappitTask → Except String RedditScraper.JSON)
    (s : WorkerState) (t : ScrappitTask)
    (h : s.pc = some (WorkerPC.execute t)) :
    step exec s = { s with
                      pc := some WorkerPC.checkFlag,
                      results := s.results ++ [⟨t, exec t⟩] } ∧
    (step exec s).pc ≠ none ∧
    (step exec s).task_queue = s.task_queue ∧
    ((∃ j, exec t = Except.ok j) ∨ (∃ e, exec t = Except.error e)) ∧
    ¬((∃ j, exec t = Except.ok j) ∧ (∃ e, exec t = Except.error e)) := by
  have hstep : step exec s = { s with
                                 pc := some WorkerPC.checkFlag,
                                 results := s.results ++ [⟨t, exec t⟩] } := by
    simp [step, h]
  refine ⟨hstep, ?_, ?_, ?_, ?_⟩
  · rw [hstep]
    simp
  · rw [hstep]
  · cases hE : exec t with
    | ok j => exact Or.inl ⟨j, rfl⟩
    | error e => exact Or.inr ⟨e, rfl⟩
  · rintro ⟨⟨j, hj⟩, ⟨e, he⟩⟩
    rw [hj] at he
    exact Except.noConfusion he

/-- Witness for C3: executing the concrete task pushes exactly its one
successful Result and returns to the flag check. -/
theorem worker_one_result_per_task_witness :
    step cExec cWorkerExecuting =
      { cWorkerExecuting with
          pc := some WorkerPC.checkFlag,
          results := [⟨cTask, Except.ok ⟨"payload"⟩⟩] } := by
  have h := (worker_one_result_per_task cExec cWorkerExecuting cTask rfl).1
  rw [h]
  rfl

/-- C8: `stop()` only clears the running flag; afterwards the worker
completes at most one additional task (the result queue grows by at most
one), exits its loop within three atomic steps, and then never moves
again — the tasks still queued at exit are never executed by this worker
instance. -/
theorem stop_halts_worker (exec : ScrappitTask → Except String RedditScraper.JSON)
    (s : WorkerState) :
    ScrappitScheduler.stop s = { s with running := false } ∧
    (∀ n, (stepN exec n (ScrappitScheduler.stop s)).results.length ≤
      s.results.length + 1) ∧
    (stepN exec 3 (ScrappitScheduler.stop s)).pc = none ∧
    (∀ n, 3 ≤ n → stepN exec n (ScrappitScheduler.stop s) =
      stepN exec 3 (ScrappitScheduler.stop s)) := by
  refine ⟨rfl, ?_, halts_in_three exec _ rfl,
    fun n hn => stepN_const_after_three exec _ rfl n hn⟩
  intro n
  have hb := stepN_results_budget exec n (ScrappitScheduler.stop s) rfl
  exact hb.trans (Nat.add_le_add_left (pcBudget_le_one _) _)

/-- Witness for C8: on a concrete running worker, the state after four
steps from `stop` equals the state after three. -/
theorem stop_halts_worker_witness :
    stepN cExec 4 (ScrappitScheduler.stop cWorkerRunning) =
      stepN cExec 3 (ScrappitScheduler.stop cWorkerRunning) :=
  (stop_halts_worker cExec cWorkerRunning).2.2.2 4 (by norm_num)

/-- Counterexample to C5 as stated: in `ScrappitScheduler.user` the
default priority also folds in the where-component and divides by 3 or
4, not 2 or 3.  At the concrete weights `cWeights` the assigned default
for a `user` task (sort NEW, not time-windowed) is 2/3, while the
claimed formula — base weight plus sort weight over 2 contributing
components, or with the time-window weight over 3 — yields 1/2
respectively 1/3. -/
theorem user_default_priority_counterexample :
    (ScrappitScheduler.user cWeights SchedulerQueues.init "alice"
        RedditAPIUserWhere.overview RedditAPIUserSort.new RedditAPIT.all
        none).2.priority = 2 / 3 ∧
    specDefaultPriority cWeights.userTask (cWeights.userSort RedditAPIUserSort.new)
      (cWeights.t RedditAPIT.all) false = 1 / 2 ∧
    specDefaultPriority cWeights.userTask (cWeights.userSort RedditAPIUserSort.new)
      (cWeights.t RedditAPIT.all) true = 1 / 3 ∧
    (2 : ℚ) / 3 ≠ 1 / 2 ∧ (2 : ℚ) / 3 ≠ 1 / 3 := by
  refine ⟨?_, ?_, ?_, ?_, ?_⟩
  · norm_num [ScrappitScheduler.user, ScrappitScheduler.put_task,
      userDefaultPriority, cWeights]
    exact ⟨fun h => RedditAPIUserSort.noConfusion h,
      fun h => RedditAPIUserSort.noConfusion h⟩
  · norm_num [specDefaultPriority, cWeights]
  · norm_num [specDefaultPriority, cWeights]
  · norm_num
  · norm_num

/-- C5 amended: when the caller omits the priority, the default is the
sum of the contributing weights — the operation kind's base weight, the
where-weight for user listings, the sort weight, and the time-window
weight exactly when the sort is TOP or CONTROVERSIAL — divided by the
number of contributing components: 2 or 3 for `r`, 3 or 4 for `user`,
2 for `comments` (whose time-windowed sorts never contribute a
time-window weight); an explicit priority is always used unchanged.
For `r` and `comments` this agrees with the spec's two-or-three
component formula. -/
theorem default_priority_formula (W : Weights) :
    (∀ (st : SchedulerQueues) (subreddit : String) (sort : RedditAPISubredditSort)
      (t : RedditAPIT),
      (ScrappitScheduler.r W st subreddit sort t none).2.priority =
        if sort = RedditAPISubredditSort.top ∨
            sort = RedditAPISubredditSort.controversial
          then (W.rTask + W.subredditSort sort + W.t t) / 3
          else (W.rTask + W.subredditSort sort) / 2) ∧
    (∀ (st : SchedulerQueues) (username : String) (wh : RedditAPIUserWhere)
      (sort : RedditAPIUserSort) (t : RedditAPIT),
      (ScrappitScheduler.user W st username wh sort t none).2.priority =
        if sort = RedditAPIUserSort.top ∨ sort = RedditAPIUserSort.controversial
          then (W.userTask + W.userWhere wh + W.userSort sort + W.t t) / 4
          else (W.userTask + W.userWhere wh + W.userSort sort) / 3) ∧
    (∀ (st : SchedulerQueues) (article : String) (sort : RedditAPICommentsSort),
      (ScrappitScheduler.comments W st article sort none).2.priority =
        (W.commentsTask + W.commentsSort sort) / 2) ∧
    (∀ (st : SchedulerQueues) (subreddit : String) (sort : RedditAPISubredditSort)
      (t : RedditAPIT) (p : ℚ),
      (ScrappitScheduler.r W st subreddit sort t (some p)).2.priority = p) ∧
    (∀ (st : SchedulerQueues) (username : String) (wh : RedditAPIUserWhere)
      (sort : RedditAPIUserSort) (t : RedditAPIT) (p : ℚ),
      (ScrappitScheduler.user W st username wh sort t (some p)).2.priority = p) ∧
    (∀ (st : SchedulerQueues) (article : String) (sort : RedditAPICommentsSort)
      (p : ℚ),
      (ScrappitScheduler.comments W st article sort (some p)).2.priority = p) ∧
    (∀ (sort : RedditAPISubredditSort) (t : RedditAPIT),
      rDefaultPriority W sort t =
        specDefaultPriority W.rTask (W.subredditSort sort) (W.t t)
          (decide (sort = RedditAPISubredditSort.top ∨
            sort = RedditAPISubredditSort.controversial))) ∧
    (∀ sort : RedditAPICommentsSort,
      commentsDefaultPriority W sort =
        specDefaultPriority W.commentsTask (W.commentsSort sort) 0 false) := by
  refine ⟨fun st subreddit sort t => rfl, fun st username wh sort t => rfl,
    fun st article sort => rfl, fun st subreddit sort t p => rfl,
    fun st username wh sort t p => rfl, fun st article sort p => rfl,
    ?_, fun sort => rfl⟩
  intro sort t
  by_cases hc : sort = RedditAPISubredditSort.top ∨
      sort = RedditAPISubredditSort.controversial
  · simp [rDefaultPriority, specDefaultPriority, hc]
  · simp [rDefaultPriority, specDefaultPriority, hc]

end Scrappit
